import Mathlib

/-!
Verification development for the devmet-app administrative scripts
(`scripts/create_github_tasks.py` and `scripts/close_completed_issues.py`).

The scripts issue sequential HTTP requests to an issue-tracking service.
We embed them shallowly: the network is an oracle `Nat → Outcome` giving the
outcome of the n-th HTTP request attempted by a run, and every operation is a
pure function returning a `Run` record: its Python return value, the list of
HTTP call attempts it made, the console lines it printed, and how many oracle
entries it consumed.

Console output convention: `prints` holds logical output lines, one entry per
line; a Python `print` whose format string begins with an explicit newline
contributes a leading empty entry.
-/

namespace Devmet

/-- A response payload, as far as the scripts inspect response bodies.
`issue` is a well-formed issue-creation response (`number`, `title` fields);
`ownerId` a well-formed GraphQL owner-lookup response; `project` a well-formed
`createProjectV2` response; `malformed` any body whose field access raises. -/
inductive Payload
  | empty
  | issue (number : Nat) (ititle : String)
  | ownerId (oid : String)
  | project (ptitle : String) (purl : String)
  | malformed
deriving DecidableEq, Repr

/-- Outcome of one HTTP request attempt: a status code with a payload and the
raw response text, or an exception raised by the transport layer
(or by subsequent response processing inside the same `try` block). -/
inductive Outcome
  | status (code : Nat) (payload : Payload) (text : String)
  | exc (msg : String)
deriving DecidableEq, Repr

/-- The network oracle: outcome of the n-th HTTP request attempt of a run. -/
abbrev Oracle := Nat → Outcome

/-- The identity of an HTTP call attempt made by the scripts. -/
inductive Call
  | labelPost (name : String) (color : String) (description : String)
  | labelPatch (name : String) (color : String) (description : String)
  | issuePost (ititle : String) (body : String) (labels : List String)
  | commentPost (issueNumber : Nat) (body : String)
  | closePatch (issueNumber : Nat)
  | ownerQuery (login : String)
  | projectMutation (ownerId : String) (ptitle : String)
deriving DecidableEq, Repr

/-- A Python return value of the remote-call wrappers: `none` is Python
`None` (also the implicit return of a function body that falls off the end),
`bool` a boolean, `issue`/`project` the dictionaries returned on success. -/
inductive PyValue
  | none
  | bool (b : Bool)
  | issue (number : Nat) (ititle : String)
  | project (ptitle : String) (purl : String)
deriving DecidableEq, Repr

/-- Result of running a piece of the script: Python return value, HTTP call
attempts made (in order), console lines printed (in order), and the number of
oracle entries consumed. -/
structure Run (α : Type) where
  ret : α
  calls : List Call
  prints : List String
  used : Nat
deriving Repr

/-- `GitHubTaskManager.create_label` (create_github_tasks.py, lines 67-89):
POST the label; on 422 (the duplicate-label conflict) PATCH the same label
name; any exception is caught inside the wrapper. The Python function has no
`return` statement, so its value is `None` on every path. On a 422 whose
follow-up PATCH returns a non-200 status, the source prints nothing (the
inner `if` has no `else`). -/
def create_label (o : Oracle) (k : Nat) (name color description : String) :
    Run PyValue :=
  match o k with
  | Outcome.exc msg =>
      { ret := PyValue.none
        calls := [Call.labelPost name color description]
        prints := ["✗ Error creating label " ++ name ++ ": " ++ msg]
        used := 1 }
  | Outcome.status code _ _ =>
      if code = 201 then
        { ret := PyValue.none
          calls := [Call.labelPost name color description]
          prints := ["✓ Created label: " ++ name]
          used := 1 }
      else if code = 422 then
        match o (k + 1) with
        | Outcome.exc msg =>
            { ret := PyValue.none
              calls := [Call.labelPost name color description,
                        Call.labelPatch name color description]
              prints := ["✗ Error creating label " ++ name ++ ": " ++ msg]
              used := 2 }
        | Outcome.status code2 _ _ =>
            if code2 = 200 then
              { ret := PyValue.none
                calls := [Call.labelPost name color description,
                          Call.labelPatch name color description]
                prints := ["✓ Updated label: " ++ name]
                used := 2 }
            else
              { ret := PyValue.none
                calls := [Call.labelPost name color description,
                          Call.labelPatch name color description]
                prints := []
                used := 2 }
      else
        { ret := PyValue.none
          calls := [Call.labelPost name color description]
          prints := ["✗ Failed to create label " ++ name ++ ": " ++
                     toString code]
          used := 1 }

/-- `GitHubTaskManager.create_issue` (create_github_tasks.py, lines 128-149):
POST the issue; on 201 parse the response and return the issue dictionary
(a malformed 201 body makes the field access raise, which the `except`
catches); on any other status print the failure and the response text and
return `None`; on an exception print the error and return `None`. -/
def create_issue (o : Oracle) (k : Nat) (ititle body : String)
    (labels : List String) : Run PyValue :=
  match o k with
  | Outcome.exc msg =>
      { ret := PyValue.none
        calls := [Call.issuePost ititle body labels]
        prints := ["✗ Error creating issue " ++ ititle ++ ": " ++ msg]
        used := 1 }
  | Outcome.status code payload text =>
      if code = 201 then
        match payload with
        | Payload.issue n t =>
            { ret := PyValue.issue n t
              calls := [Call.issuePost ititle body labels]
              prints := ["✓ Created issue #" ++ toString n ++ ": " ++ ititle]
              used := 1 }
        | _ =>
            { ret := PyValue.none
              calls := [Call.issuePost ititle body labels]
              prints := ["✗ Error creating issue " ++ ititle ++
                         ": malformed response"]
              used := 1 }
      else
        { ret := PyValue.none
          calls := [Call.issuePost ititle body labels]
          prints := ["✗ Failed to create issue " ++ ititle ++ ": " ++
                       toString code,
                     "  Response: " ++ text]
          used := 1 }

/-- `GitHubTaskManager.create_project` (create_github_tasks.py, lines
151-220): GraphQL owner-id query, then the `createProjectV2` mutation.
Returns the project dictionary on success and `None` on every failure path;
all exceptions are caught inside the wrapper. -/
def create_project (o : Oracle) (k : Nat) (login pname : String) :
    Run PyValue :=
  match o k with
  | Outcome.exc msg =>
      { ret := PyValue.none
        calls := [Call.ownerQuery login]
        prints := ["✗ Error creating project: " ++ msg]
        used := 1 }
  | Outcome.status code payload _ =>
      if code = 200 then
        match payload with
        | Payload.ownerId oid =>
            match o (k + 1) with
            | Outcome.exc msg =>
                { ret := PyValue.none
                  calls := [Call.ownerQuery login,
                            Call.projectMutation oid pname]
                  prints := ["✗ Error creating project: " ++ msg]
                  used := 2 }
            | Outcome.status code2 payload2 _ =>
                if code2 = 200 then
                  match payload2 with
                  | Payload.project pt pu =>
                      { ret := PyValue.project pt pu
                        calls := [Call.ownerQuery login,
                                  Call.projectMutation oid pname]
                        prints := ["",
                                   "✓ Created project board: " ++ pname,
                                   "  URL: " ++ pu]
                        used := 2 }
                  | _ =>
                      { ret := PyValue.none
                        calls := [Call.ownerQuery login,
                                  Call.projectMutation oid pname]
                        prints := ["✗ Failed to create project: missing data"]
                        used := 2 }
                else
                  { ret := PyValue.none
                    calls := [Call.ownerQuery login,
                              Call.projectMutation oid pname]
                    prints := ["✗ Failed to create project: " ++
                               toString code2]
                    used := 2 }
        | _ =>
            { ret := PyValue.none
              calls := [Call.ownerQuery login]
              prints := ["✗ Error creating project: malformed response"]
              used := 1 }
      else
        { ret := PyValue.none
          calls := [Call.ownerQuery login]
          prints := ["✗ Failed to get owner ID: " ++ toString code]
          used := 1 }

/-- The comment step inlined in `close_issue` (close_completed_issues.py,
lines 24-34): POST the comment, report the outcome, swallow exceptions.
The block produces no value (`None`). -/
def addComment (o : Oracle) (k : Nat) (issue_number : Nat) (body : String) :
    Run PyValue :=
  match o k with
  | Outcome.exc msg =>
      { ret := PyValue.none
        calls := [Call.commentPost issue_number body]
        prints := ["✗ Error commenting on issue #" ++ toString issue_number ++
                   ": " ++ msg]
        used := 1 }
  | Outcome.status code _ _ =>
      if code = 201 then
        { ret := PyValue.none
          calls := [Call.commentPost issue_number body]
          prints := ["✓ Added comment to issue #" ++ toString issue_number]
          used := 1 }
      else
        { ret := PyValue.none
          calls := [Call.commentPost issue_number body]
          prints := ["✗ Failed to comment on issue #" ++
                     toString issue_number ++ ": " ++ toString code]
          used := 1 }

/-- The closing PATCH at the end of `close_issue` (close_completed_issues.py,
lines 36-48): PATCH `state = closed`; `True` on 200, `False` otherwise,
exceptions swallowed. -/
def closeStep (o : Oracle) (k : Nat) (issue_number : Nat) : Run PyValue :=
  match o k with
  | Outcome.exc msg =>
      { ret := PyValue.bool false
        calls := [Call.closePatch issue_number]
        prints := ["✗ Error closing issue #" ++ toString issue_number ++
                   ": " ++ msg]
        used := 1 }
  | Outcome.status code _ _ =>
      if code = 200 then
        { ret := PyValue.bool true
          calls := [Call.closePatch issue_number]
          prints := ["✓ Closed issue #" ++ toString issue_number]
          used := 1 }
      else
        { ret := PyValue.bool false
          calls := [Call.closePatch issue_number]
          prints := ["✗ Failed to close issue #" ++ toString issue_number ++
                     ": " ++ toString code]
          used := 1 }

/-- `close_issue` (close_completed_issues.py, lines 17-48): if a truthy
comment is supplied, attempt the comment POST; then, unconditionally,
attempt the closing PATCH and return its boolean. The Python default for
`comment` is `None`; both `None` and the empty string skip the comment. -/
def close_issue (o : Oracle) (k : Nat) (issue_number : Nat)
    (comment : Option String) : Run PyValue :=
  let commentRun : Run PyValue :=
    match comment with
    | Option.some c =>
        if c = "" then { ret := PyValue.none, calls := [], prints := [], used := 0 }
        else addComment o k issue_number c
    | Option.none => { ret := PyValue.none, calls := [], prints := [], used := 0 }
  let closeRun := closeStep o (k + commentRun.used) issue_number
  { ret := closeRun.ret
    calls := commentRun.calls ++ closeRun.calls
    prints := commentRun.prints ++ closeRun.prints
    used := commentRun.used + closeRun.used }

end Devmet

namespace Devmet

/-- A task-catalog entry (`ALL_TASKS` values in create_github_tasks.py).
The `id`, `title`, `type`, `priority`, `category`, `size` and `sprint`
fields are transcribed exactly from the source. The multi-page markdown
`description` bodies are abbreviated to stable per-task stand-ins: they are
passed through opaquely as the issue body and no property below depends on
their content. -/
structure TaskDef where
  id : String
  title : String
  type : String
  priority : String
  category : String
  size : String
  sprint : String
  description : String
deriving DecidableEq, Repr

/-- `LABEL_COLORS` (create_github_tasks.py, lines 23-54), in insertion
order: label name paired with its 6-hex-digit color. -/
def LABEL_COLORS : List (String × String) := [
  ("P0-Critical", "d73a4a"),
  ("P1-High", "ff9500"),
  ("P2-Medium", "fbca04"),
  ("P3-Low", "0e8a16"),
  ("feature", "0075ca"),
  ("chore", "d4c5f9"),
  ("enhancement", "84b6eb"),
  ("bug", "d73a4a"),
  ("backend", "5319e7"),
  ("frontend", "1d76db"),
  ("infrastructure", "0e8a16"),
  ("ai", "d876e3"),
  ("integration", "fbca04"),
  ("testing", "c5def5"),
  ("docs", "0075ca"),
  ("XS", "c2e0c6"),
  ("S", "bfdadc"),
  ("M", "fef2c0"),
  ("L", "fad8c7"),
  ("XL", "f9d0c4"),
  ("Sprint-1", "c5def5"),
  ("Sprint-2", "bfdadc"),
  ("Sprint-3", "d4c5f9"),
  ("Sprint-4", "fef2c0"),
  ("Backlog", "ededed")]

/-- `label_descriptions` (create_github_tasks.py, lines 95-121). -/
def label_descriptions : List (String × String) := [
  ("P0-Critical", "Critical priority - must complete"),
  ("P1-High", "High priority - should complete"),
  ("P2-Medium", "Medium priority - nice to have"),
  ("P3-Low", "Low priority - future enhancement"),
  ("feature", "New feature or functionality"),
  ("chore", "Maintenance or setup task"),
  ("enhancement", "Enhancement to existing feature"),
  ("bug", "Bug fix"),
  ("backend", "Backend development"),
  ("frontend", "Frontend development"),
  ("infrastructure", "Infrastructure and DevOps"),
  ("ai", "AI and machine learning features"),
  ("integration", "Third-party integrations"),
  ("testing", "Testing and QA"),
  ("docs", "Documentation"),
  ("XS", "Extra Small (1-2 hours)"),
  ("S", "Small (2-4 hours)"),
  ("M", "Medium (4-8 hours)"),
  ("L", "Large (1-2 days)"),
  ("XL", "Extra Large (2-5 days)"),
  ("Sprint-1", "Week 1 - Foundation"),
  ("Sprint-2", "Week 2 - Core Backend"),
  ("Sprint-3", "Week 3 - Frontend"),
  ("Sprint-4", "Week 4 - AI & Polish"),
  ("Backlog", "Future enhancements")]

/-- `ALL_TASKS` (create_github_tasks.py, lines 227-1493), in insertion
order. -/
def ALL_TASKS : List TaskDef := [
  { id := "TASK-004", title := "Install Backend Dependencies", type := "chore", priority := "P0-Critical",
    category := "backend", size := "S", sprint := "Sprint-1",
    description := "TASK-004 long-form description" },
  { id := "TASK-005", title := "Configure Prisma and Database Schema", type := "chore", priority := "P0-Critical",
    category := "infrastructure", size := "L", sprint := "Sprint-1",
    description := "TASK-005 long-form description" },
  { id := "TASK-006", title := "Create Fastify Server Setup", type := "feature", priority := "P0-Critical",
    category := "backend", size := "M", sprint := "Sprint-1",
    description := "TASK-006 long-form description" },
  { id := "TASK-007", title := "Create Configuration Management", type := "chore", priority := "P0-Critical",
    category := "backend", size := "S", sprint := "Sprint-1",
    description := "TASK-007 long-form description" },
  { id := "TASK-008", title := "Set Up Logging System", type := "chore", priority := "P1-High",
    category := "backend", size := "S", sprint := "Sprint-1",
    description := "TASK-008 long-form description" },
  { id := "TASK-009", title := "Create Database Connection Service", type := "chore", priority := "P0-Critical",
    category := "infrastructure", size := "S", sprint := "Sprint-1",
    description := "TASK-009 long-form description" },
  { id := "TASK-010", title := "Create Redis Connection Service", type := "chore", priority := "P0-Critical",
    category := "infrastructure", size := "S", sprint := "Sprint-1",
    description := "TASK-010 long-form description" },
  { id := "TASK-011", title := "Set Up Testing Framework", type := "chore", priority := "P1-High",
    category := "testing", size := "M", sprint := "Sprint-1",
    description := "TASK-011 long-form description" },
  { id := "TASK-012", title := "Create NPM Scripts", type := "chore", priority := "P1-High",
    category := "infrastructure", size := "XS", sprint := "Sprint-1",
    description := "TASK-012 long-form description" },
  { id := "TASK-013", title := "Create Database Seeding Script", type := "chore", priority := "P2-Medium",
    category := "infrastructure", size := "M", sprint := "Sprint-1",
    description := "TASK-013 long-form description" },
  { id := "TASK-014", title := "Implement GitHub OAuth Flow", type := "feature", priority := "P0-Critical",
    category := "backend", size := "L", sprint := "Sprint-2",
    description := "TASK-014 long-form description" },
  { id := "TASK-015", title := "Create JWT Authentication Middleware", type := "feature", priority := "P0-Critical",
    category := "backend", size := "M", sprint := "Sprint-2",
    description := "TASK-015 long-form description" },
  { id := "TASK-016", title := "Implement User Profile Management", type := "feature", priority := "P1-High",
    category := "backend", size := "M", sprint := "Sprint-2",
    description := "TASK-016 long-form description" },
  { id := "TASK-017", title := "Implement Repository Listing from GitHub", type := "feature", priority := "P0-Critical",
    category := "integration", size := "M", sprint := "Sprint-2",
    description := "TASK-017 long-form description" },
  { id := "TASK-018", title := "Implement Repository Connection", type := "feature", priority := "P0-Critical",
    category := "integration", size := "L", sprint := "Sprint-2",
    description := "TASK-018 long-form description" },
  { id := "TASK-019", title := "Implement Historical Data Import", type := "feature", priority := "P1-High",
    category := "integration", size := "XL", sprint := "Sprint-2",
    description := "TASK-019 long-form description" },
  { id := "TASK-020", title := "Create Webhook Endpoint", type := "feature", priority := "P0-Critical",
    category := "integration", size := "M", sprint := "Sprint-2",
    description := "TASK-020 long-form description" },
  { id := "TASK-021", title := "Implement Webhook Queue Processing", type := "feature", priority := "P0-Critical",
    category := "backend", size := "L", sprint := "Sprint-2",
    description := "TASK-021 long-form description" },
  { id := "TASK-022", title := "Implement Event Processors", type := "feature", priority := "P0-Critical",
    category := "backend", size := "L", sprint := "Sprint-2",
    description := "TASK-022 long-form description" },
  { id := "TASK-023", title := "Implement Basic Metrics Service", type := "feature", priority := "P0-Critical",
    category := "backend", size := "L", sprint := "Sprint-2",
    description := "TASK-023 long-form description" },
  { id := "TASK-024", title := "Create Metrics API Endpoints", type := "feature", priority := "P0-Critical",
    category := "backend", size := "M", sprint := "Sprint-2",
    description := "TASK-024 long-form description" },
  { id := "TASK-025", title := "Implement Metrics Aggregation Jobs", type := "chore", priority := "P1-High",
    category := "backend", size := "M", sprint := "Sprint-2",
    description := "TASK-025 long-form description" },
  { id := "TASK-026", title := "Initialize Frontend Project", type := "chore", priority := "P0-Critical",
    category := "frontend", size := "M", sprint := "Sprint-3",
    description := "TASK-026 long-form description" },
  { id := "TASK-027", title := "Create API Client Library", type := "chore", priority := "P0-Critical",
    category := "frontend", size := "M", sprint := "Sprint-3",
    description := "TASK-027 long-form description" },
  { id := "TASK-028", title := "Implement Authentication Flow (Frontend)", type := "feature", priority := "P0-Critical",
    category := "frontend", size := "L", sprint := "Sprint-3",
    description := "TASK-028 long-form description" },
  { id := "TASK-029", title := "Create Layout and Navigation", type := "feature", priority := "P1-High",
    category := "frontend", size := "M", sprint := "Sprint-3",
    description := "TASK-029 long-form description" },
  { id := "TASK-030", title := "Create Main Dashboard Page", type := "feature", priority := "P0-Critical",
    category := "frontend", size := "L", sprint := "Sprint-3",
    description := "TASK-030 long-form description" },
  { id := "TASK-031", title := "Implement Metrics Charts", type := "feature", priority := "P1-High",
    category := "frontend", size := "L", sprint := "Sprint-3",
    description := "TASK-031 long-form description" },
  { id := "TASK-032", title := "Create Repository Management Page", type := "feature", priority := "P0-Critical",
    category := "frontend", size := "L", sprint := "Sprint-3",
    description := "TASK-032 long-form description" },
  { id := "TASK-033", title := "Create Individual Developer Metrics Page", type := "feature", priority := "P1-High",
    category := "frontend", size := "M", sprint := "Sprint-3",
    description := "TASK-033 long-form description" },
  { id := "TASK-034", title := "Implement WebSocket Server (Backend)", type := "feature", priority := "P1-High",
    category := "backend", size := "M", sprint := "Sprint-3",
    description := "TASK-034 long-form description" },
  { id := "TASK-035", title := "Emit Real-time Events from Backend", type := "feature", priority := "P1-High",
    category := "backend", size := "M", sprint := "Sprint-3",
    description := "TASK-035 long-form description" },
  { id := "TASK-036", title := "Implement WebSocket Client (Frontend)", type := "feature", priority := "P1-High",
    category := "frontend", size := "M", sprint := "Sprint-3",
    description := "TASK-036 long-form description" },
  { id := "TASK-037", title := "Add Real-time Updates to Dashboard", type := "feature", priority := "P1-High",
    category := "frontend", size := "S", sprint := "Sprint-3",
    description := "TASK-037 long-form description" },
  { id := "TASK-038", title := "Create Settings Page", type := "feature", priority := "P2-Medium",
    category := "frontend", size := "M", sprint := "Sprint-3",
    description := "TASK-038 long-form description" }]

/-- `TASKS_TO_CREATE` (create_github_tasks.py, lines 1501-1505): the
statically configured identifier list; every entry is commented out in the
source, so it is empty. -/
def TASKS_TO_CREATE : List String := []

end Devmet

namespace Devmet

/-- A 60-character separator line (`'=' * 60` in both scripts). -/
def eq60 : String := String.mk (List.replicate 60 ('='))

/-- Python `token[-4:]`: the last four characters (the whole string when it
is shorter than four characters). -/
def lastFour (s : String) : String := String.mk (s.data.drop (s.data.length - 4))

/-- A static close target (`issues_to_close` entries in
close_completed_issues.py, lines 61-77). -/
structure CloseTarget where
  number : Nat
  task : String
  title : String
deriving DecidableEq, Repr

/-- `issues_to_close` (close_completed_issues.py, lines 61-77). -/
def issues_to_close : List CloseTarget :=
  [{ number := 7, task := "TASK-004", title := "Install Backend Dependencies" },
   { number := 8, task := "TASK-005", title := "Configure Prisma and Database Schema" },
   { number := 9, task := "TASK-006", title := "Create Fastify Server Setup" }]

/-- The canned closing message (`comment` local in close_completed_issues.py,
lines 79-91). -/
def closeComment : String :=
  "✅ This task has already been completed.\n\n" ++
  "Closing this duplicate issue. The work for this task was completed earlier in the project.\n\n" ++
  "Relevant completed tasks:\n" ++
  "- TASK-001: PostgreSQL Setup ✅\n" ++
  "- TASK-002: Redis Setup ✅\n" ++
  "- TASK-003: API Project Structure ✅\n" ++
  "- TASK-004: Backend Dependencies ✅\n" ++
  "- TASK-005: Prisma & Database Schema ✅\n" ++
  "- TASK-006: Fastify Server Setup ✅\n\n" ++
  "Current focus is on TASK-007, TASK-008, and TASK-009."

/-- The per-target loop of the closer `main` (close_completed_issues.py,
lines 95-98): print the processing line, run `close_issue` with the canned
comment, print a blank line. -/
def closeLoop (o : Oracle) (k : Nat) : List CloseTarget → Run Unit
  | [] => { ret := (), calls := [], prints := [], used := 0 }
  | tgt :: rest =>
      let r := close_issue o k tgt.number (Option.some closeComment)
      let rr := closeLoop o (k + r.used) rest
      { ret := ()
        calls := r.calls ++ rr.calls
        prints := ("Processing Issue #" ++ toString tgt.number ++ ": [" ++
                   tgt.task ++ "] " ++ tgt.title) :: (r.prints ++ [""] ++ rr.prints)
        used := r.used + rr.used }

/-- Environment configuration of the closer script: `GITHUB_TOKEN`,
`GITHUB_OWNER` (default empty) and `GITHUB_REPO` (default `devmet-app`). -/
structure CloserEnv where
  token : String
  owner : String
  repo : String
deriving DecidableEq, Repr

/-- `main` of close_completed_issues.py (lines 50-105): bail out with a
configuration error when the token or the owner is unset (empty string,
which is falsy in Python); otherwise close each static target in order. -/
def closer_main (env : CloserEnv) (o : Oracle) : Run Unit :=
  let header := ["🗑️  Closing Completed Task Issues", "", eq60]
  if env.token = "" ∨ env.owner = "" then
    { ret := ()
      calls := []
      prints := header ++ ["❌ ERROR: Required environment variables not set"]
      used := 0 }
  else
    let body := closeLoop o 0 issues_to_close
    { ret := ()
      calls := body.calls
      prints := header ++
        ["📦 Repository: " ++ env.owner ++ "/" ++ env.repo, "",
         "📋 Closing completed task issues:", ""] ++
        body.prints ++
        [eq60, "✅ Done! Check your issues at:",
         "   https://github.com/" ++ env.owner ++ "/" ++ env.repo ++ "/issues",
         "", "💡 Note: GitHub does not allow deleting issues via API.",
         "   These issues are now closed. If you need to delete them",
         "   completely, you can do so from the GitHub UI (Settings → Danger Zone)."]
      used := body.used }

/-- `create_task_issue_body` (create_github_tasks.py, lines 1510-1515):
issue title `"[" + id + "] " + title`, the body is the task description, and
the labels are `[priority, type, category, size, sprint]` in that order. -/
def create_task_issue_body (task : TaskDef) : String × String × List String :=
  ("[" ++ task.id ++ "] " ++ task.title,
   task.description,
   [task.priority, task.type, task.category, task.size, task.sprint])

/-- Description for a label name (`label_descriptions.get(name, '')`). -/
def labelDescription (name : String) : String :=
  ((label_descriptions.find? (fun p => p.1 == name)).map Prod.snd).getD ""

/-- The loop body of `create_all_labels` (create_github_tasks.py,
lines 123-126): one `create_label` per catalog entry, in insertion order.
The `time.sleep(0.2)` rate-limit pause has no observable effect here. -/
def labelLoop (o : Oracle) (k : Nat) : List (String × String) → Run Unit
  | [] => { ret := (), calls := [], prints := [], used := 0 }
  | (name, color) :: rest =>
      let r := create_label o k name color (labelDescription name)
      let rr := labelLoop o (k + r.used) rest
      { ret := ()
        calls := r.calls ++ rr.calls
        prints := r.prints ++ rr.prints
        used := r.used + rr.used }

/-- `create_all_labels` (create_github_tasks.py, lines 91-126). -/
def create_all_labels (o : Oracle) (k : Nat) : Run Unit :=
  let loop := labelLoop o k LABEL_COLORS
  { ret := ()
    calls := loop.calls
    prints := ["", "📌 Creating labels...", ""] ++ loop.prints
    used := loop.used }

/-- Catalog lookup (`task_id in ALL_TASKS` / `ALL_TASKS[task_id]`). -/
def lookupTask (tid : String) : Option TaskDef :=
  ALL_TASKS.find? (fun t => t.id == tid)

/-- The selection-resolution loop of the creator `main` (create_github_tasks.py,
lines 1547-1559): each identifier either resolves to its catalog entry or
emits a warning line; order of the identifiers is preserved. -/
def resolveTasks : List String → List TaskDef × List String
  | [] => ([], [])
  | tid :: rest =>
      let r := resolveTasks rest
      match lookupTask tid with
      | Option.some t => (t :: r.1, r.2)
      | Option.none =>
          (r.1, ("⚠️  Warning: " ++ tid ++ " not found in task definitions") :: r.2)

/-- Which source the identifier list is drawn from (create_github_tasks.py,
lines 1541-1570): command-line arguments take precedence, then the
statically configured `TASKS_TO_CREATE` list, else no selection. -/
inductive Selection
  | fromArgs (ids : List String)
  | fromConfig (ids : List String)
  | noneGiven
deriving DecidableEq, Repr

/-- Selection precedence (`if len(sys.argv) > 1 ... elif TASKS_TO_CREATE ...
else ...`); `argv` is `sys.argv[1:]` and a Python list is truthy iff
non-empty. -/
def selectTaskIds (argv staticList : List String) : Selection :=
  if argv ≠ [] then Selection.fromArgs argv
  else if staticList ≠ [] then Selection.fromConfig staticList
  else Selection.noneGiven

/-- The issue-creation loop of the creator `main` (create_github_tasks.py,
lines 1581-1586): build title/body/labels with `create_task_issue_body`,
call `create_issue`, and accumulate `(number, title)` of each created issue
(`manager.created_issues`). The `time.sleep(0.5)` pause has no observable
effect here. -/
def issueLoop (o : Oracle) (k : Nat) : List TaskDef → Run (List (Nat × String))
  | [] => { ret := [], calls := [], prints := [], used := 0 }
  | t :: rest =>
      let tb := create_task_issue_body t
      let r := create_issue o k tb.1 tb.2.1 tb.2.2
      let rr := issueLoop o (k + r.used) rest
      { ret := (match r.ret with
                | PyValue.issue n ti => [(n, ti)]
                | _ => []) ++ rr.ret
        calls := r.calls ++ rr.calls
        prints := r.prints ++ rr.prints
        used := r.used + rr.used }

/-- Environment configuration of the creator script. `argv` is the list of
positional command-line arguments (`sys.argv[1:]`). -/
structure CreatorEnv where
  token : String
  owner : String
  repo : String
  argv : List String
deriving DecidableEq, Repr

/-- The creator banner (create_github_tasks.py, lines 1519-1520). -/
def creatorHeader : List String :=
  ["🚀 DevMetrics GitHub Task Creator", "", eq60]

/-- The repository/token report printed once configuration checks pass
(create_github_tasks.py, lines 1537-1538). -/
def repoLines (env : CreatorEnv) : List String :=
  ["📦 Repository: " ++ env.owner ++ "/" ++ env.repo,
   "🔑 Token: " ++ "********************" ++ lastFour env.token, ""]

/-- The run summary (create_github_tasks.py, lines 1595-1613). -/
def summaryLines (env : CreatorEnv) (created : List (Nat × String))
    (proj : PyValue) : List String :=
  ["", eq60, "✅ Summary:",
   "   - Labels ensured: " ++ toString LABEL_COLORS.length,
   "   - Issues created: " ++ toString created.length] ++
  (if created = [] then []
   else ["", "   Created issues:"] ++
     created.map (fun p => "     - Issue #" ++ toString p.1 ++ ": " ++ p.2)) ++
  (match proj with
   | PyValue.project pt pu =>
       ["", "   - Project board: " ++ pt, "   - Project URL: " ++ pu]
   | _ => []) ++
  ["", "📌 Next steps:",
   "   1. Visit your repository: https://github.com/" ++ env.owner ++ "/" ++
     env.repo ++ "/issues",
   "   2. Review and organize the new issues",
   "   3. Start working on the tasks!",
   "", "🎉 All set! Happy coding!"]

/-- The tail of the creator `main` once a non-empty task selection is
resolved (create_github_tasks.py, lines 1572-1613): ensure all labels,
create the issues, create the project board, print the summary.
`selLine` is the `Tasks from command line`/`Tasks from configuration`
report, `warns` the warning lines the resolution loop printed. -/
def creatorRun (env : CreatorEnv) (o : Oracle) (selLine : String)
    (warns : List String) (tasks : List TaskDef) : Run Unit :=
  if tasks = [] then
    { ret := ()
      calls := []
      prints := creatorHeader ++ repoLines env ++ [selLine, ""] ++ warns ++
        ["❌ No valid tasks to create!"]
      used := 0 }
  else
    let rl := create_all_labels o 0
    let ri := issueLoop o rl.used tasks
    let rp := create_project o (rl.used + ri.used) env.owner
      ("DevMetrics Development")
    { ret := ()
      calls := rl.calls ++ ri.calls ++ rp.calls
      prints := creatorHeader ++ repoLines env ++ [selLine, ""] ++ warns ++
        rl.prints ++
        ["", "📋 Creating " ++ toString tasks.length ++ " issue(s)...", ""] ++
        ri.prints ++
        ["", "📊 Creating project board..."] ++ rp.prints ++
        summaryLines env ri.ret rp.ret
      used := rl.used + ri.used + rp.used }

/-- `main` of create_github_tasks.py (lines 1517-1613), parametric in the
statically configured `TASKS_TO_CREATE` identifier list: configuration
checks, selection precedence, resolution with warnings, then the
synchronization run. -/
def creator_main (env : CreatorEnv) (staticList : List String) (o : Oracle) :
    Run Unit :=
  if env.token = "" then
    { ret := ()
      calls := []
      prints := creatorHeader ++
        ["❌ ERROR: GITHUB_TOKEN environment variable not set",
         "", "To set your token:",
         "  export GITHUB_TOKEN=your_github_personal_access_token",
         "", "Create a token at: https://github.com/settings/tokens",
         "Required scopes: repo, project"]
      used := 0 }
  else if env.owner = "" then
    { ret := ()
      calls := []
      prints := creatorHeader ++
        ["❌ ERROR: GITHUB_OWNER environment variable not set",
         "", "To set your GitHub username:",
         "  export GITHUB_OWNER=your_github_username"]
      used := 0 }
  else
    match selectTaskIds env.argv staticList with
    | Selection.noneGiven =>
        { ret := ()
          calls := []
          prints := creatorHeader ++ repoLines env ++
            ["❌ ERROR: No tasks specified!",
             "", "Please specify tasks using one of these methods:",
             "  1. Command line: python3 create_github_tasks.py TASK-007 TASK-008",
             "  2. Edit TASKS_TO_CREATE list in the script",
             "", "Available tasks: " ++
               String.intercalate (", ") (ALL_TASKS.map (fun t => t.id))]
          used := 0 }
    | Selection.fromArgs ids =>
        let r := resolveTasks ids
        creatorRun env o
          ("📝 Tasks from command line: " ++ String.intercalate (", ") ids)
          r.2 r.1
    | Selection.fromConfig ids =>
        let r := resolveTasks ids
        creatorRun env o
          ("📝 Tasks from configuration: " ++ String.intercalate (", ") ids)
          r.2 r.1

end Devmet

namespace Devmet

/-- A console line is a status line when it starts with the success glyph or
the failure glyph. -/
def isStatusLine (s : String) : Bool :=
  match s.data with
  | c :: _ => c = '✓' || c = '✗'
  | [] => false

/-- Number of status lines among a list of printed lines. -/
def statusLineCount (ls : List String) : Nat := ls.countP (fun s => isStatusLine s)

/-- Recognizer of issue-creation call attempts. -/
def isIssuePost : Call → Bool
  | Call.issuePost _ _ _ => true
  | _ => false

/-- The issue-creation call a task-catalog entry gives rise to. -/
def issueCallOf (t : TaskDef) : Call :=
  Call.issuePost ("[" ++ t.id ++ "] " ++ t.title) t.description
    [t.priority, t.type, t.category, t.size, t.sprint]

/-- Recognizer of boolean Python return values. -/
def isBoolValue : PyValue → Bool
  | PyValue.bool _ => true
  | _ => false

/-- The one silent path of `create_label`: the create POST returns the
422 conflict and the follow-up PATCH completes with a non-200 status. -/
def conflictUpdateFailed (o : Oracle) (k : Nat) : Bool :=
  match o k, o (k + 1) with
  | Outcome.status c _ _, Outcome.status c2 _ _ => c == 422 && c2 != 200
  | _, _ => false

theorem isStatusLine_append (a b : String) (h : ¬ a = "") :
    isStatusLine (a ++ b) = isStatusLine a := by
  cases a with
  | mk da =>
    cases b with
    | mk db =>
      cases da with
      | nil => exact absurd rfl h
      | cons c cs => rfl

theorem isStatusLine_append_true (a b : String) (h : isStatusLine a = true) :
    isStatusLine (a ++ b) = true := by
  have hne : ¬ a = "" := by
    intro he
    subst he
    simp [isStatusLine] at h
  rw [isStatusLine_append a b hne]
  exact h

theorem isStatusLine_append_false (a b : String) (ha : ¬ a = "")
    (h : isStatusLine a = false) : isStatusLine (a ++ b) = false := by
  rw [isStatusLine_append a b ha]
  exact h

end Devmet


namespace Devmet

theorem create_issue_calls (o : Oracle) (k : Nat) (ititle body : String)
    (labels : List String) :
    (create_issue o k ititle body labels).calls =
      [Call.issuePost ititle body labels] := by
  unfold create_issue
  cases h : o k with
  | exc msg => rfl
  | status code payload text =>
    dsimp only
    by_cases hc : code = 201
    · rw [if_pos hc]
      cases payload <;> rfl
    · rw [if_neg hc]

theorem create_label_no_issuePost (o : Oracle) (k : Nat)
    (name color description : String) :
    (create_label o k name color description).calls.filter isIssuePost = [] := by
  unfold create_label
  cases h : o k with
  | exc msg => rfl
  | status code payload text =>
    dsimp only
    by_cases h1 : code = 201
    · rw [if_pos h1]
      rfl
    · rw [if_neg h1]
      by_cases h2 : code = 422
      · rw [if_pos h2]
        cases h3 : o (k + 1) with
        | exc m => rfl
        | status c2 p2 t2 =>
          dsimp only
          by_cases h4 : c2 = 200
          · rw [if_pos h4]
            rfl
          · rw [if_neg h4]
            rfl
      · rw [if_neg h2]
        rfl

theorem create_project_no_issuePost (o : Oracle) (k : Nat)
    (login pname : String) :
    (create_project o k login pname).calls.filter isIssuePost = [] := by
  unfold create_project
  cases h : o k with
  | exc msg => rfl
  | status code payload text =>
    dsimp only
    by_cases h1 : code = 200
    · rw [if_pos h1]
      cases payload with
      | ownerId oid =>
        cases h2 : o (k + 1) with
        | exc m => rfl
        | status c2 p2 t2 =>
          dsimp only
          by_cases h3 : c2 = 200
          · rw [if_pos h3]
            cases p2 <;> rfl
          · rw [if_neg h3]
            rfl
      | empty => rfl
      | issue n t => rfl
      | project pt pu => rfl
      | malformed => rfl
    · rw [if_neg h1]
      rfl

theorem labelLoop_no_issuePost (o : Oracle) :
    ∀ (ls : List (String × String)) (k : Nat),
    (labelLoop o k ls).calls.filter isIssuePost = [] := by
  intro ls
  induction ls with
  | nil => intro k; rfl
  | cons p rest ih =>
    intro k
    cases p with
    | mk name color =>
      simp [labelLoop, List.filter_append, create_label_no_issuePost, ih]

theorem create_all_labels_no_issuePost (o : Oracle) (k : Nat) :
    (create_all_labels o k).calls.filter isIssuePost = [] := by
  simp only [create_all_labels]
  exact labelLoop_no_issuePost o LABEL_COLORS k

theorem issueLoop_calls (o : Oracle) :
    ∀ (tasks : List TaskDef) (k : Nat),
    (issueLoop o k tasks).calls = tasks.map issueCallOf := by
  intro tasks
  induction tasks with
  | nil => intro k; rfl
  | cons t rest ih =>
    intro k
    simp [issueLoop, create_issue_calls, ih, issueCallOf, create_task_issue_body]

theorem filter_issueCallOf (ts : List TaskDef) :
    (ts.map issueCallOf).filter isIssuePost = ts.map issueCallOf := by
  apply List.filter_eq_self.mpr
  intro a ha
  obtain ⟨t, _, rfl⟩ := List.mem_map.mp ha
  rfl

theorem creatorRun_issue_calls (env : CreatorEnv) (o : Oracle)
    (selLine : String) (warns : List String) (tasks : List TaskDef) :
    (creatorRun env o selLine warns tasks).calls.filter isIssuePost =
      tasks.map issueCallOf := by
  unfold creatorRun
  by_cases h : tasks = []
  · rw [if_pos h]
    subst h
    rfl
  · rw [if_neg h]
    simp [List.filter_append, create_all_labels_no_issuePost, issueLoop_calls,
      create_project_no_issuePost, filter_issueCallOf]

end Devmet


namespace Devmet

theorem statusLineCount_one (x : String) (h : isStatusLine x = true) :
    statusLineCount [x] = 1 := by
  simp [statusLineCount, List.countP_cons, h]

theorem statusLineCount_pair (x y : String) (hx : isStatusLine x = true)
    (hy : isStatusLine y = false) : statusLineCount [x, y] = 1 := by
  simp [statusLineCount, List.countP_cons, hx, hy]

theorem statusLineCount_triple (y z : String) (hy : isStatusLine y = true)
    (hz : isStatusLine z = false) : statusLineCount ["", y, z] = 1 := by
  simp [statusLineCount, List.countP_cons, hy, hz,
    (by decide : isStatusLine "" = false)]

theorem create_label_statusLines (o : Oracle) (k : Nat)
    (name color description : String) :
    statusLineCount ((create_label o k name color description).prints) =
      if conflictUpdateFailed o k then 0 else 1 := by
  unfold create_label conflictUpdateFailed
  cases h : o k with
  | exc msg =>
    dsimp only
    rw [statusLineCount_one _ (isStatusLine_append_true _ _
      (isStatusLine_append_true _ _ (isStatusLine_append_true _ _ (by decide))))]
    rfl
  | status code payload text =>
    cases h3 : o (k + 1) with
    | exc m =>
      dsimp only
      by_cases h1 : code = 201
      · subst h1
        rw [if_pos rfl,
          statusLineCount_one _ (isStatusLine_append_true _ _ (by decide))]
        rfl
      · rw [if_neg h1]
        by_cases h2 : code = 422
        · subst h2
          rw [if_pos rfl,
            statusLineCount_one _ (isStatusLine_append_true _ _
              (isStatusLine_append_true _ _
                (isStatusLine_append_true _ _ (by decide))))]
          rfl
        · rw [if_neg h2,
            statusLineCount_one _ (isStatusLine_append_true _ _
              (isStatusLine_append_true _ _
                (isStatusLine_append_true _ _ (by decide))))]
          have hb : (code == 422) = false := beq_eq_false_iff_ne.mpr h2
          simp [hb]
    | status c2 p2 t2 =>
      dsimp only
      by_cases h1 : code = 201
      · subst h1
        rw [if_pos rfl,
          statusLineCount_one _ (isStatusLine_append_true _ _ (by decide))]
        rfl
      · rw [if_neg h1]
        by_cases h2 : code = 422
        · subst h2
          rw [if_pos rfl]
          by_cases h4 : c2 = 200
          · subst h4
            rw [if_pos rfl,
              statusLineCount_one _ (isStatusLine_append_true _ _ (by decide))]
            rfl
          · rw [if_neg h4]
            have hb : (c2 != 200) = true := bne_iff_ne.mpr h4
            simp [statusLineCount, hb]
        · rw [if_neg h2,
            statusLineCount_one _ (isStatusLine_append_true _ _
              (isStatusLine_append_true _ _
                (isStatusLine_append_true _ _ (by decide))))]
          have hb : (code == 422) = false := beq_eq_false_iff_ne.mpr h2
          simp [hb]

end Devmet

namespace Devmet

theorem create_issue_statusLines (o : Oracle) (k : Nat) (ititle body : String)
    (labels : List String) :
    statusLineCount ((create_issue o k ititle body labels).prints) = 1 := by
  unfold create_issue
  cases h : o k with
  | exc msg =>
    dsimp only
    exact statusLineCount_one _ (isStatusLine_append_true _ _
      (isStatusLine_append_true _ _ (isStatusLine_append_true _ _ (by decide))))
  | status code payload text =>
    dsimp only
    by_cases h1 : code = 201
    · subst h1
      rw [if_pos rfl]
      cases payload with
      | issue n t =>
        exact statusLineCount_one _ (isStatusLine_append_true _ _
          (isStatusLine_append_true _ _ (isStatusLine_append_true _ _ (by decide))))
      | empty =>
        exact statusLineCount_one _ (isStatusLine_append_true _ _
          (isStatusLine_append_true _ _ (by decide)))
      | ownerId oid =>
        exact statusLineCount_one _ (isStatusLine_append_true _ _
          (isStatusLine_append_true _ _ (by decide)))
      | project pt pu =>
        exact statusLineCount_one _ (isStatusLine_append_true _ _
          (isStatusLine_append_true _ _ (by decide)))
      | malformed =>
        exact statusLineCount_one _ (isStatusLine_append_true _ _
          (isStatusLine_append_true _ _ (by decide)))
    · rw [if_neg h1]
      exact statusLineCount_pair _ _
        (isStatusLine_append_true _ _ (isStatusLine_append_true _ _
          (isStatusLine_append_true _ _ (by decide))))
        (isStatusLine_append_false _ _ (by decide) (by decide))

theorem addComment_statusLines (o : Oracle) (k : Nat) (issue_number : Nat)
    (body : String) :
    statusLineCount ((addComment o k issue_number body).prints) = 1 := by
  unfold addComment
  cases h : o k with
  | exc msg =>
    dsimp only
    exact statusLineCount_one _ (isStatusLine_append_true _ _
      (isStatusLine_append_true _ _ (isStatusLine_append_true _ _ (by decide))))
  | status code payload text =>
    dsimp only
    by_cases h1 : code = 201
    · subst h1
      rw [if_pos rfl]
      exact statusLineCount_one _ (isStatusLine_append_true _ _ (by decide))
    · rw [if_neg h1]
      exact statusLineCount_one _ (isStatusLine_append_true _ _
        (isStatusLine_append_true _ _ (isStatusLine_append_true _ _ (by decide))))

theorem closeStep_statusLines (o : Oracle) (k : Nat) (issue_number : Nat) :
    statusLineCount ((closeStep o k issue_number).prints) = 1 := by
  unfold closeStep
  cases h : o k with
  | exc msg =>
    dsimp only
    exact statusLineCount_one _ (isStatusLine_append_true _ _
      (isStatusLine_append_true _ _ (isStatusLine_append_true _ _ (by decide))))
  | status code payload text =>
    dsimp only
    by_cases h1 : code = 200
    · subst h1
      rw [if_pos rfl]
      exact statusLineCount_one _ (isStatusLine_append_true _ _ (by decide))
    · rw [if_neg h1]
      exact statusLineCount_one _ (isStatusLine_append_true _ _
        (isStatusLine_append_true _ _ (isStatusLine_append_true _ _ (by decide))))

theorem create_project_statusLines (o : Oracle) (k : Nat)
    (login pname : String) :
    statusLineCount ((create_project o k login pname).prints) = 1 := by
  unfold create_project
  cases h : o k with
  | exc msg =>
    dsimp only
    exact statusLineCount_one _ (isStatusLine_append_true _ _ (by decide))
  | status code payload text =>
    dsimp only
    by_cases h1 : code = 200
    · subst h1
      rw [if_pos rfl]
      cases payload with
      | ownerId oid =>
        cases h2 : o (k + 1) with
        | exc m =>
          dsimp only
          exact statusLineCount_one _ (isStatusLine_append_true _ _ (by decide))
        | status c2 p2 t2 =>
          dsimp only
          by_cases h3 : c2 = 200
          · subst h3
            rw [if_pos rfl]
            cases p2 with
            | project pt pu =>
              exact statusLineCount_triple _ _
                (isStatusLine_append_true _ _ (by decide))
                (isStatusLine_append_false _ _ (by decide) (by decide))
            | empty => exact statusLineCount_one _ (by decide)
            | issue n t => exact statusLineCount_one _ (by decide)
            | ownerId oid2 => exact statusLineCount_one _ (by decide)
            | malformed => exact statusLineCount_one _ (by decide)
          · rw [if_neg h3]
            exact statusLineCount_one _ (isStatusLine_append_true _ _ (by decide))
      | empty => exact statusLineCount_one _ (by decide)
      | issue n t => exact statusLineCount_one _ (by decide)
      | project pt pu => exact statusLineCount_one _ (by decide)
      | malformed => exact statusLineCount_one _ (by decide)
    · rw [if_neg h1]
      exact statusLineCount_one _ (isStatusLine_append_true _ _ (by decide))

end Devmet

namespace Devmet

theorem create_label_ret (o : Oracle) (k : Nat)
    (name color description : String) :
    (create_label o k name color description).ret = PyValue.none := by
  unfold create_label
  cases h : o k with
  | exc msg => rfl
  | status code payload text =>
    dsimp only
    by_cases h1 : code = 201
    · rw [if_pos h1]
    · rw [if_neg h1]
      by_cases h2 : code = 422
      · rw [if_pos h2]
        cases h3 : o (k + 1) with
        | exc m => rfl
        | status c2 p2 t2 =>
          dsimp only
          by_cases h4 : c2 = 200
          · rw [if_pos h4]
          · rw [if_neg h4]
      · rw [if_neg h2]

theorem create_issue_ret (o : Oracle) (k : Nat) (ititle body : String)
    (labels : List String) :
    (create_issue o k ititle body labels).ret = PyValue.none ∨
    ∃ n t, (create_issue o k ititle body labels).ret = PyValue.issue n t := by
  unfold create_issue
  cases h : o k with
  | exc msg => exact Or.inl rfl
  | status code payload text =>
    dsimp only
    by_cases h1 : code = 201
    · rw [if_pos h1]
      cases payload with
      | issue n t => exact Or.inr ⟨n, t, rfl⟩
      | empty => exact Or.inl rfl
      | ownerId oid => exact Or.inl rfl
      | project pt pu => exact Or.inl rfl
      | malformed => exact Or.inl rfl
    · rw [if_neg h1]
      exact Or.inl rfl

theorem addComment_ret (o : Oracle) (k : Nat) (issue_number : Nat)
    (body : String) :
    (addComment o k issue_number body).ret = PyValue.none := by
  unfold addComment
  cases h : o k with
  | exc msg => rfl
  | status code payload text =>
    dsimp only
    by_cases h1 : code = 201
    · rw [if_pos h1]
    · rw [if_neg h1]

theorem addComment_calls (o : Oracle) (k : Nat) (issue_number : Nat)
    (body : String) :
    (addComment o k issue_number body).calls =
      [Call.commentPost issue_number body] := by
  unfold addComment
  cases h : o k with
  | exc msg => rfl
  | status code payload text =>
    dsimp only
    by_cases h1 : code = 201
    · rw [if_pos h1]
    · rw [if_neg h1]

theorem closeStep_ret (o : Oracle) (k : Nat) (issue_number : Nat) :
    ∃ b, (closeStep o k issue_number).ret = PyValue.bool b := by
  unfold closeStep
  cases h : o k with
  | exc msg => exact ⟨false, rfl⟩
  | status code payload text =>
    dsimp only
    by_cases h1 : code = 200
    · rw [if_pos h1]
      exact ⟨true, rfl⟩
    · rw [if_neg h1]
      exact ⟨false, rfl⟩

theorem closeStep_calls (o : Oracle) (k : Nat) (issue_number : Nat) :
    (closeStep o k issue_number).calls = [Call.closePatch issue_number] := by
  unfold closeStep
  cases h : o k with
  | exc msg => rfl
  | status code payload text =>
    dsimp only
    by_cases h1 : code = 200
    · rw [if_pos h1]
    · rw [if_neg h1]

theorem close_issue_ret (o : Oracle) (k : Nat) (issue_number : Nat)
    (comment : Option String) :
    ∃ b, (close_issue o k issue_number comment).ret = PyValue.bool b := by
  unfold close_issue
  exact closeStep_ret o _ issue_number

theorem create_project_ret (o : Oracle) (k : Nat) (login pname : String) :
    (create_project o k login pname).ret = PyValue.none ∨
    ∃ pt pu, (create_project o k login pname).ret = PyValue.project pt pu := by
  unfold create_project
  cases h : o k with
  | exc msg => exact Or.inl rfl
  | status code payload text =>
    dsimp only
    by_cases h1 : code = 200
    · rw [if_pos h1]
      cases payload with
      | ownerId oid =>
        cases h2 : o (k + 1) with
        | exc m => exact Or.inl rfl
        | status c2 p2 t2 =>
          dsimp only
          by_cases h3 : c2 = 200
          · rw [if_pos h3]
            cases p2 with
            | project pt pu => exact Or.inr ⟨pt, pu, rfl⟩
            | empty => exact Or.inl rfl
            | issue n t => exact Or.inl rfl
            | ownerId oid2 => exact Or.inl rfl
            | malformed => exact Or.inl rfl
          · rw [if_neg h3]
            exact Or.inl rfl
      | empty => exact Or.inl rfl
      | issue n t => exact Or.inl rfl
      | project pt pu => exact Or.inl rfl
      | malformed => exact Or.inl rfl
    · rw [if_neg h1]
      exact Or.inl rfl

theorem close_issue_calls (o : Oracle) (k : Nat) (issue_number : Nat)
    (c : String) (hc : ¬ c = "") :
    (close_issue o k issue_number (Option.some c)).calls =
      [Call.commentPost issue_number c, Call.closePatch issue_number] := by
  unfold close_issue
  dsimp only
  rw [if_neg hc]
  rw [addComment_calls, closeStep_calls]
  rfl

end Devmet

namespace Devmet

theorem closeComment_ne : ¬ closeComment = "" := by decide

theorem closer_main_calls (env : CloserEnv) (o : Oracle)
    (ht : ¬ env.token = "") (ho : ¬ env.owner = "") :
    (closer_main env o).calls =
      [Call.commentPost 7 closeComment, Call.closePatch 7,
       Call.commentPost 8 closeComment, Call.closePatch 8,
       Call.commentPost 9 closeComment, Call.closePatch 9] := by
  unfold closer_main
  rw [if_neg (by exact not_or.mpr ⟨ht, ho⟩)]
  dsimp only
  simp only [closeLoop, issues_to_close]
  rw [close_issue_calls o _ 7 closeComment closeComment_ne,
    close_issue_calls o _ 8 closeComment closeComment_ne,
    close_issue_calls o _ 9 closeComment closeComment_ne]
  rfl

theorem lookupTask_id (tid : String) (t : TaskDef)
    (h : lookupTask tid = Option.some t) : t.id = tid := by
  have hp := List.find?_some h
  exact eq_of_beq hp

theorem resolveTasks_fst : ∀ (ids : List String),
    (resolveTasks ids).1 = ids.filterMap lookupTask := by
  intro ids
  induction ids with
  | nil => rfl
  | cons tid rest ih =>
    simp only [resolveTasks]
    cases hl : lookupTask tid with
    | some t => simp [List.filterMap_cons, hl, ih]
    | none => simp [List.filterMap_cons, hl, ih]

theorem resolveTasks_warn : ∀ (ids : List String) (i : String), i ∈ ids →
    lookupTask i = Option.none →
    ("⚠️  Warning: " ++ i ++ " not found in task definitions") ∈
      (resolveTasks ids).2 := by
  intro ids
  induction ids with
  | nil => intro i hi; exact absurd hi (List.not_mem_nil i)
  | cons tid rest ih =>
    intro i hi hnone
    simp only [resolveTasks]
    rcases List.mem_cons.mp hi with h | h
    · subst h
      rw [hnone]
      exact List.mem_cons_self _ _
    · cases hl : lookupTask tid with
      | some t => exact ih i h hnone
      | none => exact List.mem_cons_of_mem _ (ih i h hnone)

theorem creator_main_run (env : CreatorEnv) (staticList : List String)
    (o : Oracle) (ids : List String) (ht : ¬ env.token = "")
    (ho : ¬ env.owner = "")
    (hs : selectTaskIds env.argv staticList = Selection.fromArgs ids ∨
          selectTaskIds env.argv staticList = Selection.fromConfig ids) :
    ∃ selLine, creator_main env staticList o =
      creatorRun env o selLine (resolveTasks ids).2 (resolveTasks ids).1 := by
  unfold creator_main
  rw [if_neg ht, if_neg ho]
  rcases hs with h | h
  · rw [h]
    exact ⟨_, rfl⟩
  · rw [h]
    exact ⟨_, rfl⟩

theorem creator_main_issue_calls (env : CreatorEnv) (staticList : List String)
    (o : Oracle) (ids : List String) (ht : ¬ env.token = "")
    (ho : ¬ env.owner = "")
    (hs : selectTaskIds env.argv staticList = Selection.fromArgs ids ∨
          selectTaskIds env.argv staticList = Selection.fromConfig ids) :
    (creator_main env staticList o).calls.filter isIssuePost =
      ((resolveTasks ids).1).map issueCallOf := by
  obtain ⟨selLine, he⟩ := creator_main_run env staticList o ids ht ho hs
  rw [he]
  exact creatorRun_issue_calls env o selLine _ _

theorem creatorRun_warn_mem (env : CreatorEnv) (o : Oracle) (selLine : String)
    (warns : List String) (tasks : List TaskDef) (w : String)
    (hw : w ∈ warns) :
    w ∈ (creatorRun env o selLine warns tasks).prints := by
  unfold creatorRun
  by_cases h : tasks = []
  · rw [if_pos h]
    simp [hw]
  · rw [if_neg h]
    simp [hw]

end Devmet

namespace Devmet

/-- C1: when the initial label-create POST returns the duplicate-label
conflict status (422, the conflict the remote service signals for a
duplicate label), `create_label` makes exactly one follow-up PATCH to the
same label name and no second POST: the call trace is the POST followed by
the single PATCH, whatever the PATCH outcome. -/
theorem C1_conflict_update (o : Oracle) (k : Nat)
    (name color description : String) (p : Payload) (tx : String)
    (h : o k = Outcome.status 422 p tx) :
    (create_label o k name color description).calls =
      [Call.labelPost name color description,
       Call.labelPatch name color description] := by
  unfold create_label
  rw [h]
  dsimp only
  rw [if_neg (by decide), if_pos rfl]
  cases h3 : o (k + 1) with
  | exc m => rfl
  | status c2 p2 t2 =>
    dsimp only
    by_cases h4 : c2 = 200
    · rw [if_pos h4]
    · rw [if_neg h4]

theorem C1_witness :
    (fun _ => Outcome.status 422 Payload.empty "") 0 =
      Outcome.status 422 Payload.empty "" ∧
    (create_label (fun _ => Outcome.status 422 Payload.empty "") 0
      ("bug") ("d73a4a") ("Bug fix")).calls =
      [Call.labelPost ("bug") ("d73a4a") ("Bug fix"),
       Call.labelPatch ("bug") ("d73a4a") ("Bug fix")] :=
  ⟨rfl, C1_conflict_update _ 0 _ _ _ _ _ rfl⟩

/-- C2 counterexample: the claim says every remote-call wrapper returns a
success indicator, a boolean for the label operation. The label wrapper
`create_label` has no return statement: even on a successful 201 create it
returns Python None, not a boolean. -/
theorem C2_counterexample :
    isBoolValue ((create_label (fun _ => Outcome.status 201 Payload.empty "")
      0 ("bug") ("d73a4a") ("Bug fix")).ret) = false := rfl

/-- C2 (amended): no remote-call wrapper raises past itself — for every
transport or HTTP outcome each returns a defined value: the close operation
returns a boolean, issue and project creation return an optional value
(None or the created resource), but the label wrapper and the inline
comment step return no success indicator at all (always None). -/
theorem C2_wrappers_never_raise (o : Oracle) (k : Nat)
    (name color description ititle body login pname cbody : String)
    (labels : List String) (n : Nat) (comment : Option String) :
    (create_label o k name color description).ret = PyValue.none ∧
    ((create_issue o k ititle body labels).ret = PyValue.none ∨
      ∃ num t, (create_issue o k ititle body labels).ret = PyValue.issue num t) ∧
    (addComment o k n cbody).ret = PyValue.none ∧
    (∃ b, (close_issue o k n comment).ret = PyValue.bool b) ∧
    ((create_project o k login pname).ret = PyValue.none ∨
      ∃ pt pu, (create_project o k login pname).ret = PyValue.project pt pu) :=
  ⟨create_label_ret o k name color description,
   create_issue_ret o k ititle body labels,
   addComment_ret o k n cbody,
   close_issue_ret o k n comment,
   create_project_ret o k login pname⟩

/-- C3: in a creator run whose configuration checks pass, the
issue-creation calls are exactly one per selected task, in order, each with
title `"[" + id + "] " + title` and label list
`[priority, type, category, size, sprint]` of that task; and every selected
task is a catalog entry. -/
theorem C3_issue_title_labels (env : CreatorEnv) (staticList : List String)
    (o : Oracle) (ids : List String) (ht : ¬ env.token = "")
    (ho : ¬ env.owner = "")
    (hs : selectTaskIds env.argv staticList = Selection.fromArgs ids ∨
          selectTaskIds env.argv staticList = Selection.fromConfig ids) :
    (creator_main env staticList o).calls.filter isIssuePost =
      ((resolveTasks ids).1).map (fun t =>
        Call.issuePost ("[" ++ t.id ++ "] " ++ t.title) t.description
          [t.priority, t.type, t.category, t.size, t.sprint]) ∧
    ∀ t ∈ (resolveTasks ids).1, t ∈ ALL_TASKS := by
  constructor
  · exact creator_main_issue_calls env staticList o ids ht ho hs
  · intro t htm
    rw [resolveTasks_fst] at htm
    obtain ⟨i, _, hl⟩ := List.mem_filterMap.mp htm
    exact List.mem_of_find?_eq_some hl

theorem C3_witness :
    (¬ ("t" : String) = "") ∧ (¬ ("me" : String) = "") ∧
    (selectTaskIds ["TASK-007"] [] = Selection.fromArgs ["TASK-007"] ∨
     selectTaskIds ["TASK-007"] [] = Selection.fromConfig ["TASK-007"]) ∧
    ((creator_main
        { token := "t", owner := "me", repo := "devmet-app",
          argv := ["TASK-007"] } [] (fun _ => Outcome.exc "down")).calls.filter
        isIssuePost =
      ((resolveTasks ["TASK-007"]).1).map (fun t =>
        Call.issuePost ("[" ++ t.id ++ "] " ++ t.title) t.description
          [t.priority, t.type, t.category, t.size, t.sprint]) ∧
     ∀ t ∈ (resolveTasks ["TASK-007"]).1, t ∈ ALL_TASKS) :=
  ⟨by decide, by decide, Or.inl rfl,
   C3_issue_title_labels
     { token := "t", owner := "me", repo := "devmet-app",
       argv := ["TASK-007"] } [] (fun _ => Outcome.exc "down") ["TASK-007"]
     (by decide) (by decide) (Or.inl rfl)⟩

end Devmet

namespace Devmet

/-- C4: task selection precedence — non-empty command-line arguments are
used as the identifier list; otherwise a non-empty statically configured
list is used; otherwise the run prints the usage message listing every
catalog identifier and makes no HTTP call at all. -/
theorem C4_selection_precedence (env : CreatorEnv) (staticList : List String)
    (o : Oracle) :
    (env.argv ≠ [] →
      selectTaskIds env.argv staticList = Selection.fromArgs env.argv) ∧
    (env.argv = [] → staticList ≠ [] →
      selectTaskIds env.argv staticList = Selection.fromConfig staticList) ∧
    (env.argv = [] → staticList = [] → ¬ env.token = "" → ¬ env.owner = "" →
      (creator_main env staticList o).calls = [] ∧
      ("Available tasks: " ++
          String.intercalate (", ") (ALL_TASKS.map (fun t => t.id))) ∈
        (creator_main env staticList o).prints) := by
  refine ⟨?_, ?_, ?_⟩
  · intro ha
    unfold selectTaskIds
    rw [if_pos ha]
  · intro ha hsl
    unfold selectTaskIds
    rw [if_neg (not_not_intro ha), if_pos hsl]
  · intro ha hsl ht ho
    have hsel : selectTaskIds env.argv staticList = Selection.noneGiven := by
      unfold selectTaskIds
      rw [if_neg (not_not_intro ha), if_neg (not_not_intro hsl)]
    unfold creator_main
    rw [if_neg ht, if_neg ho, hsel]
    dsimp only
    refine ⟨rfl, ?_⟩
    exact List.mem_append_right _ (by simp)

theorem C4_witness :
    (([] : List String) = []) ∧
    (creator_main
        { token := "t", owner := "me", repo := "devmet-app", argv := [] }
        [] (fun _ => Outcome.exc "down")).calls = [] ∧
    ("Available tasks: " ++
        String.intercalate (", ") (ALL_TASKS.map (fun t => t.id))) ∈
      (creator_main
        { token := "t", owner := "me", repo := "devmet-app", argv := [] }
        [] (fun _ => Outcome.exc "down")).prints :=
  ⟨rfl,
   (C4_selection_precedence
     { token := "t", owner := "me", repo := "devmet-app", argv := [] }
     [] (fun _ => Outcome.exc "down")).2.2 rfl rfl (by decide) (by decide)⟩

/-- C5: an identifier in the resolved selection source that is not a
catalog id produces its warning line in the output and contributes no
issue-creation call, while the issue-creation calls are exactly those of
the identifiers that do resolve, in order — an unknown identifier is never
fatal. -/
theorem C5_unknown_id_soft (env : CreatorEnv) (staticList : List String)
    (o : Oracle) (ids : List String) (i : String) (ht : ¬ env.token = "")
    (ho : ¬ env.owner = "")
    (hs : selectTaskIds env.argv staticList = Selection.fromArgs ids ∨
          selectTaskIds env.argv staticList = Selection.fromConfig ids)
    (hi : i ∈ ids) (hnone : lookupTask i = Option.none) :
    ("⚠️  Warning: " ++ i ++ " not found in task definitions") ∈
      (creator_main env staticList o).prints ∧
    (creator_main env staticList o).calls.filter isIssuePost =
      (ids.filterMap lookupTask).map issueCallOf := by
  obtain ⟨selLine, he⟩ := creator_main_run env staticList o ids ht ho hs
  constructor
  · rw [he]
    exact creatorRun_warn_mem _ _ _ _ _ _ (resolveTasks_warn ids i hi hnone)
  · rw [he, creatorRun_issue_calls, resolveTasks_fst]

theorem C5_witness :
    (¬ ("t" : String) = "") ∧ ("TASK-999" ∈ ["TASK-999", "TASK-007"]) ∧
    lookupTask ("TASK-999") = Option.none ∧
    ("⚠️  Warning: " ++ "TASK-999" ++ " not found in task definitions") ∈
      (creator_main
        { token := "t", owner := "me", repo := "devmet-app",
          argv := ["TASK-999", "TASK-007"] } []
        (fun _ => Outcome.exc "down")).prints ∧
    (creator_main
        { token := "t", owner := "me", repo := "devmet-app",
          argv := ["TASK-999", "TASK-007"] } []
        (fun _ => Outcome.exc "down")).calls.filter isIssuePost =
      ((["TASK-999", "TASK-007"] : List String).filterMap lookupTask).map
        issueCallOf := by
  refine ⟨by decide, by decide, by decide, ?_⟩
  exact C5_unknown_id_soft
    { token := "t", owner := "me", repo := "devmet-app",
      argv := ["TASK-999", "TASK-007"] } []
    (fun _ => Outcome.exc "down") ["TASK-999", "TASK-007"] ("TASK-999")
    (by decide) (by decide) (Or.inl rfl) (by decide) (by decide)

/-- C6: with the credential or the owner environment variable unset (empty),
both scripts make zero HTTP calls and report a configuration error: the
creator prints the matching missing-variable line, the closer its single
error line. -/
theorem C6_missing_config_no_calls (cenv : CreatorEnv) (zenv : CloserEnv)
    (staticList : List String) (o oz : Oracle)
    (hc : cenv.token = "" ∨ cenv.owner = "")
    (hz : zenv.token = "" ∨ zenv.owner = "") :
    ((creator_main cenv staticList o).calls = [] ∧
      (("❌ ERROR: GITHUB_TOKEN environment variable not set") ∈
          (creator_main cenv staticList o).prints ∨
       ("❌ ERROR: GITHUB_OWNER environment variable not set") ∈
          (creator_main cenv staticList o).prints)) ∧
    ((closer_main zenv oz).calls = [] ∧
      ("❌ ERROR: Required environment variables not set") ∈
        (closer_main zenv oz).prints) := by
  constructor
  · unfold creator_main
    by_cases h1 : cenv.token = ""
    · rw [if_pos h1]
      exact ⟨rfl, Or.inl (List.mem_append_right _ (by simp))⟩
    · have h2 : cenv.owner = "" := hc.resolve_left h1
      rw [if_neg h1, if_pos h2]
      exact ⟨rfl, Or.inr (List.mem_append_right _ (by simp))⟩
  · unfold closer_main
    rw [if_pos hz]
    exact ⟨rfl, List.mem_append_right _ (by simp)⟩

theorem C6_witness :
    (("" : String) = "" ∨ ("me" : String) = "") ∧
    (creator_main
        { token := "", owner := "me", repo := "devmet-app",
          argv := ["TASK-007"] } [] (fun _ => Outcome.exc "down")).calls =
      [] ∧
    (closer_main { token := "", owner := "", repo := "devmet-app" }
        (fun _ => Outcome.exc "down")).calls = [] :=
  ⟨Or.inl rfl,
   ((C6_missing_config_no_calls
      { token := "", owner := "me", repo := "devmet-app",
        argv := ["TASK-007"] }
      { token := "", owner := "", repo := "devmet-app" } []
      (fun _ => Outcome.exc "down") (fun _ => Outcome.exc "down")
      (Or.inl rfl) (Or.inl rfl)).1).1,
   ((C6_missing_config_no_calls
      { token := "", owner := "me", repo := "devmet-app",
        argv := ["TASK-007"] }
      { token := "", owner := "", repo := "devmet-app" } []
      (fun _ => Outcome.exc "down") (fun _ => Outcome.exc "down")
      (Or.inl rfl) (Or.inl rfl)).2).1⟩

/-- C7: for a truthy comment body, `close_issue` makes exactly one comment
POST followed by exactly one closing PATCH, whatever the outcomes of
either; and a configured closer run makes exactly that pair for each of
the static targets 7, 8 and 9, in order. -/
theorem C7_comment_then_close (o : Oracle) (k : Nat) (n : Nat) (c : String)
    (hc : ¬ c = "") (env : CloserEnv) (oz : Oracle)
    (ht : ¬ env.token = "") (ho : ¬ env.owner = "") :
    (close_issue o k n (Option.some c)).calls =
      [Call.commentPost n c, Call.closePatch n] ∧
    (closer_main env oz).calls =
      [Call.commentPost 7 closeComment, Call.closePatch 7,
       Call.commentPost 8 closeComment, Call.closePatch 8,
       Call.commentPost 9 closeComment, Call.closePatch 9] :=
  ⟨close_issue_calls o k n c hc, closer_main_calls env oz ht ho⟩

theorem C7_witness :
    (¬ ("done" : String) = "") ∧ (¬ ("t" : String) = "") ∧
    (close_issue (fun _ => Outcome.exc "down") 0 7
        (Option.some ("done"))).calls =
      [Call.commentPost 7 ("done"), Call.closePatch 7] ∧
    (closer_main { token := "t", owner := "me", repo := "devmet-app" }
        (fun _ => Outcome.exc "down")).calls =
      [Call.commentPost 7 closeComment, Call.closePatch 7,
       Call.commentPost 8 closeComment, Call.closePatch 8,
       Call.commentPost 9 closeComment, Call.closePatch 9] := by
  refine ⟨by decide, by decide, ?_, ?_⟩
  · exact (C7_comment_then_close (fun _ => Outcome.exc "down") 0 7 ("done")
      (by decide) { token := "t", owner := "me", repo := "devmet-app" }
      (fun _ => Outcome.exc "down") (by decide) (by decide)).1
  · exact (C7_comment_then_close (fun _ => Outcome.exc "down") 0 7 ("done")
      (by decide) { token := "t", owner := "me", repo := "devmet-app" }
      (fun _ => Outcome.exc "down") (by decide) (by decide)).2

end Devmet

namespace Devmet

/-- C8 counterexample: the claim says every wrapper invocation prints
exactly one status line for every outcome. When the label create POST
returns the 422 conflict and the follow-up PATCH returns a non-200 status
(here 500), `create_label` prints no status line at all: the inner success
test has no else branch. -/
theorem C8_counterexample :
    statusLineCount ((create_label
      (fun j => if j = 0 then Outcome.status 422 Payload.empty ""
                else Outcome.status 500 Payload.empty "") 0
      ("bug") ("d73a4a") ("Bug fix")).prints) = 0 := rfl

/-- C8 (amended): every remote-call wrapper invocation prints exactly one
status line (success glyph, or failure glyph with detail) for every
status-code and exception outcome, with one exception: `create_label`
prints no status line when the create returns the 422 conflict and the
follow-up update completes with a non-200 status. -/
theorem C8_status_lines (o : Oracle) (k : Nat)
    (name color description ititle body login pname cbody : String)
    (labels : List String) (n : Nat) :
    statusLineCount ((create_label o k name color description).prints) =
      (if conflictUpdateFailed o k then 0 else 1) ∧
    statusLineCount ((create_issue o k ititle body labels).prints) = 1 ∧
    statusLineCount ((addComment o k n cbody).prints) = 1 ∧
    statusLineCount ((closeStep o k n).prints) = 1 ∧
    statusLineCount ((create_project o k login pname).prints) = 1 :=
  ⟨create_label_statusLines o k name color description,
   create_issue_statusLines o k ititle body labels,
   addComment_statusLines o k n cbody,
   closeStep_statusLines o k n,
   create_project_statusLines o k login pname⟩

/-- C9: when command-line arguments are supplied but none resolves to a
catalog identifier, the creator run prints the empty-selection diagnostic
and makes no HTTP call of any kind — label synchronization included. -/
theorem C9_empty_valid_selection (env : CreatorEnv) (staticList : List String)
    (o : Oracle) (ht : ¬ env.token = "") (ho : ¬ env.owner = "")
    (ha : env.argv ≠ [])
    (hall : ∀ i ∈ env.argv, lookupTask i = Option.none) :
    (creator_main env staticList o).calls = [] ∧
    ("❌ No valid tasks to create!") ∈
      (creator_main env staticList o).prints := by
  have hs : selectTaskIds env.argv staticList = Selection.fromArgs env.argv := by
    unfold selectTaskIds
    rw [if_pos ha]
  obtain ⟨selLine, he⟩ :=
    creator_main_run env staticList o env.argv ht ho (Or.inl hs)
  have hempty : (resolveTasks env.argv).1 = [] := by
    rw [resolveTasks_fst]
    exact List.filterMap_eq_nil_iff.mpr hall
  rw [he, hempty]
  unfold creatorRun
  rw [if_pos rfl]
  exact ⟨rfl, List.mem_append_right _ (by simp)⟩

theorem C9_witness :
    (¬ ("t" : String) = "") ∧ ((["NOPE"] : List String) ≠ []) ∧
    (∀ i ∈ (["NOPE"] : List String), lookupTask i = Option.none) ∧
    (creator_main
        { token := "t", owner := "me", repo := "devmet-app",
          argv := ["NOPE"] } [] (fun _ => Outcome.exc "down")).calls = [] ∧
    ("❌ No valid tasks to create!") ∈
      (creator_main
        { token := "t", owner := "me", repo := "devmet-app",
          argv := ["NOPE"] } [] (fun _ => Outcome.exc "down")).prints := by
  refine ⟨by decide, by decide, by decide, ?_⟩
  exact C9_empty_valid_selection
    { token := "t", owner := "me", repo := "devmet-app", argv := ["NOPE"] }
    [] (fun _ => Outcome.exc "down") (by decide) (by decide) (by decide)
    (by decide)

theorem count_filterMap_lookup (i : String) (t : TaskDef)
    (hl : lookupTask i = Option.some t) :
    ∀ ids : List String,
      ((ids.filterMap lookupTask).count t) = ids.count i := by
  intro ids
  induction ids with
  | nil => rfl
  | cons j rest ih =>
    rw [List.filterMap_cons]
    cases hj : lookupTask j with
    | none =>
      have hji : ¬ j = i := by
        intro he
        rw [he, hl] at hj
        exact Option.noConfusion hj
      have hb : (i == j) = false :=
        beq_eq_false_iff_ne.mpr (fun he => hji he.symm)
      simp [List.count_cons, ih, hb]
      exact hji
    | some t2 =>
      have ht2 : t2.id = j := lookupTask_id j t2 hj
      have hti : t.id = i := lookupTask_id i t hl
      by_cases hji : j = i
      · subst hji
        rw [hl] at hj
        have htt : t2 = t := (Option.some.inj hj).symm
        subst htt
        simp [List.count_cons, ih]
      · have htt : ¬ t2 = t := by
          intro he
          apply hji
          rw [← ht2, he, hti]
        have hb1 : (t == t2) = false :=
          beq_eq_false_iff_ne.mpr (fun he => htt he.symm)
        have hb2 : (i == j) = false :=
          beq_eq_false_iff_ne.mpr (fun he => hji he.symm)
        simp [List.count_cons, ih, hb1, hb2]
        rw [if_neg htt, if_neg hji]

/-- C10: selection does not deduplicate — a configured creator run makes
one issue-creation call per occurrence of a valid identifier in the
resolved identifier list, so an identifier appearing n times yields n
separate issue-creation calls (n copies of its task in the selection). -/
theorem C10_no_dedup (env : CreatorEnv) (staticList : List String)
    (o : Oracle) (ids : List String) (i : String) (t : TaskDef)
    (ht : ¬ env.token = "") (ho : ¬ env.owner = "")
    (hs : selectTaskIds env.argv staticList = Selection.fromArgs ids ∨
          selectTaskIds env.argv staticList = Selection.fromConfig ids)
    (hl : lookupTask i = Option.some t) :
    ((creator_main env staticList o).calls.filter isIssuePost).length =
      (ids.filterMap lookupTask).length ∧
    ((ids.filterMap lookupTask).count t) = ids.count i := by
  constructor
  · rw [creator_main_issue_calls env staticList o ids ht ho hs,
      resolveTasks_fst, List.length_map]
  · exact count_filterMap_lookup i t hl ids

theorem C10_witness :
    lookupTask ("TASK-004") = Option.some
      { id := "TASK-004", title := "Install Backend Dependencies",
        type := "chore", priority := "P0-Critical", category := "backend",
        size := "S", sprint := "Sprint-1",
        description := "TASK-004 long-form description" } ∧
    ((creator_main
        { token := "t", owner := "me", repo := "devmet-app",
          argv := ["TASK-004", "TASK-004"] } []
        (fun _ => Outcome.exc "down")).calls.filter isIssuePost).length =
      ((["TASK-004", "TASK-004"] : List String).filterMap
        lookupTask).length ∧
    (((["TASK-004", "TASK-004"] : List String).filterMap lookupTask).count
      { id := "TASK-004", title := "Install Backend Dependencies",
        type := "chore", priority := "P0-Critical", category := "backend",
        size := "S", sprint := "Sprint-1",
        description := "TASK-004 long-form description" }) =
      (["TASK-004", "TASK-004"] : List String).count ("TASK-004") := by
  refine ⟨by decide, ?_⟩
  exact C10_no_dedup
    { token := "t", owner := "me", repo := "devmet-app",
      argv := ["TASK-004", "TASK-004"] } []
    (fun _ => Outcome.exc "down") ["TASK-004", "TASK-004"] ("TASK-004")
    { id := "TASK-004", title := "Install Backend Dependencies",
      type := "chore", priority := "P0-Critical", category := "backend",
      size := "S", sprint := "Sprint-1",
      description := "TASK-004 long-form description" }
    (by decide) (by decide) (Or.inl rfl) (by decide)

end Devmet
